import Mathlib

/-!
Shallow embedding of `src/app.py` (a Reddit-to-Q&A pipeline) and proofs of the
spec claims about it.  External collaborators (the Reddit client `praw`, the
generative-model client `genai`, the stdlib JSON parser, pandas, the Streamlit
shell) are modelled as explicit parameters or abstract outcomes; the logic of
`app.py` itself is translated line by line.
-/

deriving instance DecidableEq for Except

namespace RedditQA

open scoped List

/-! ## Data model for the fetcher (`get_trending_posts_with_comments`) -/

/-- One comment of a thread, as delivered by the platform: a numeric score and
a text body.  Only these two attributes are read by the source. -/
structure Comment where
  score : Int
  body : String
deriving Repr, DecidableEq

/-- Errors raised by the platform client while fetching, mirroring the three
except-arms of `get_trending_posts_with_comments` (a PRAW client error, an HTTP
response error such as bad credentials, or any other exception). -/
inductive FetchErr where
  | praw (msg : String)
  | response (msg : String)
  | other (msg : String)
deriving Repr, DecidableEq

/-- One thread as delivered by the platform: title, body text (`selftext`,
the empty string when the post has no body), and the outcome of retrieving its
comments (`post.comments.replace_more(limit=0)` + `post.comments.list()`),
which is itself a network operation that can raise. -/
structure PostData where
  title : String
  selftext : String
  commentsFetch : Except FetchErr (List Comment)
deriving Repr, DecidableEq

/-- The comparison used by `comments.sort(key=lambda x: x.score, reverse=True)`:
`a` may be placed before `b` exactly when `b.score ≤ a.score`. -/
def scoreDescLE (a b : Comment) : Bool :=
  decide (b.score ≤ a.score)

/-- `comments.sort(key=lambda x: x.score, reverse=True)` — Python `list.sort`
is a stable sort; with `reverse=True` it orders by descending key and keeps
equal-key elements in their original order.  Any stable sort computes the same
list, so we model it with `List.mergeSort` (stable) under `scoreDescLE`. -/
def rankComments (comments : List Comment) : List Comment :=
  comments.mergeSort scoreDescLE

/-- `top_comments = comments[:min(10, len(comments))]` (after the in-place sort). -/
def topComments (comments : List Comment) : List Comment :=
  (rankComments comments).take (min 10 comments.length)

/-- The marker rendered when a post has no body text. -/
def noBodyMarker : String := "[No body text]"

/-- `post.selftext if post.selftext else '[No body text]'` — Python truthiness:
the empty string is falsy, so an absent/empty body renders the marker. -/
def renderBody (selftext : String) : String :=
  if selftext = "" then noBodyMarker else selftext

/-- `for i, comment in enumerate(top_comments, 1): ... f"Comment {i}: {comment.body}\n"` -/
def commentLines : Nat → List Comment → String
  | _, [] => ""
  | i, c :: rest =>
    "Comment " ++ toString i ++ ": " ++ c.body ++ "\n" ++ commentLines (i + 1) rest

/-- The `formatted_output` built for one post (title line, body line, comment lines). -/
def formatPost (title selftext : String) (top : List Comment) : String :=
  "Title: " ++ title ++ "\n" ++ "Post: " ++ renderBody selftext ++ "\n" ++
    commentLines 1 top

/-- The body of the `for post in top_posts:` loop, accumulating one formatted
bundle per post; fetching a post's comments can raise, which aborts the loop
(the exception escapes to the surrounding `try`). -/
def processPosts : List PostData → Except FetchErr (List String)
  | [] => .ok []
  | p :: rest =>
    match p.commentsFetch with
    | .error e => .error e
    | .ok cs =>
      match processPosts rest with
      | .error e => .error e
      | .ok out => .ok (formatPost p.title p.selftext (topComments cs) :: out)

/-- `get_trending_posts_with_comments`.  The praw client construction and
`subreddit.top(...)` call are external network operations, modelled by the
`topPosts` argument: either the retrieved thread list or the exception it
raised (e.g. bad credentials).  Every exception — whether from the initial
retrieval or while fetching some post's comments — is caught by one of the
three except-arms, which display an error and fall through to `return None`:
no partial `all_posts_data` ever escapes. -/
def get_trending_posts_with_comments
    (topPosts : Except FetchErr (List PostData)) : Option (List String) :=
  match topPosts with
  | .error _ => none
  | .ok posts =>
    match processPosts posts with
    | .error _ => none
    | .ok out => some out

/-! ## The transformer (`convert_to_qa`) and its JSON values -/

/-- A JSON value, the possible results of `json.loads` (numbers kept integral;
no claim depends on float payloads). -/
inductive JsonVal where
  | null
  | bool (b : Bool)
  | num (n : Int)
  | str (s : String)
  | arr (items : List JsonVal)
  | obj (fields : List (String × JsonVal))
deriving Repr

/-- Errors raised by the generative-model client (`genai`) during
`model.generate_content`: transport or auth faults.  `convert_to_qa` installs
no handler for them, so they propagate to the caller. -/
inductive ModelAPIError where
  | transport (msg : String)
  | auth (msg : String)
deriving Repr, DecidableEq

/-- The prompt string built from one thread bundle
(`f"Raw_data : ====================\n {information}\n====================\n"`). -/
def mkPrompt (information : String) : String :=
  "Raw_data : ====================\n " ++ information ++ "\n====================\n"

/-- `convert_to_qa`.  The network call `model.generate_content(prompt)` is the
external parameter `generate` (returning the response text or raising a client
error), and the stdlib parser `json.loads` is the external parameter
`json_loads` (returning the parsed value, or `none` for a `JSONDecodeError`).
The source catches only `JSONDecodeError` — displaying an error and returning
`None` — while a client error escapes uncaught. -/
def convert_to_qa
    (generate : String → Except ModelAPIError String)
    (json_loads : String → Option JsonVal)
    (information : String) : Except ModelAPIError (Option JsonVal) :=
  match generate (mkPrompt information) with
  | .error e => .error e
  | .ok text =>
    match json_loads text with
    | some v => .ok (some v)
    | none => .ok none

/-! ## The pipeline driver: the per-post loop in `main` (lines 97–106) -/

/-- Python truthiness of a parsed JSON value, deciding `if qa_pairs:`. -/
def pyTruthy : JsonVal → Bool
  | .null => false
  | .bool b => b
  | .num n => decide (n ≠ 0)
  | .str s => decide (s ≠ "")
  | .arr items => !items.isEmpty
  | .obj fields => !fields.isEmpty

/-- Python iteration of a parsed JSON value, as consumed by
`all_qa_pairs.extend(qa_pairs)`: a list yields its items, a dict its keys, a
string its characters; numbers, booleans and `null` are not iterable
(`extend` raises `TypeError`). -/
def pyIterate : JsonVal → Option (List JsonVal)
  | .arr items => some items
  | .obj fields => some (fields.map fun kv => .str kv.1)
  | .str s => some (s.toList.map fun c => .str (String.mk [c]))
  | _ => none

/-- An exception escaping the driver loop: an uncaught model-client error from
`convert_to_qa`, or the `TypeError` from extending with a non-iterable value. -/
inductive DriverAbort where
  | modelApi (e : ModelAPIError)
  | typeError
deriving Repr

/-- The loop's mutable state: `all_qa_pairs` and the number of per-post
"Failed to convert" warnings issued so far. -/
structure LoopState where
  all_qa_pairs : List JsonVal
  warnings : Nat
deriving Repr

/-- One iteration of the loop body for bundle `b`:
`qa_pairs = convert_to_qa(...)`; `if qa_pairs: all_qa_pairs.extend(qa_pairs)`
`else: st.warning(...)`.  A raised exception aborts, carrying the state as it
stood at that moment (the locals of the aborted run). -/
def driveStep (cv : String → Except ModelAPIError (Option JsonVal))
    (s : LoopState) (b : String) : Except (DriverAbort × LoopState) LoopState :=
  match cv b with
  | .error e => .error (.modelApi e, s)
  | .ok none => .ok { s with warnings := s.warnings + 1 }
  | .ok (some v) =>
    if pyTruthy v then
      match pyIterate v with
      | some items => .ok { s with all_qa_pairs := s.all_qa_pairs ++ items }
      | none => .error (.typeError, s)
    else
      .ok { s with warnings := s.warnings + 1 }

/-- The whole `for i, post_content in enumerate(reddit_content):` loop. -/
def driveLoop (cv : String → Except ModelAPIError (Option JsonVal))
    (s : LoopState) : List String → Except (DriverAbort × LoopState) LoopState
  | [] => .ok s
  | b :: rest =>
    match driveStep cv s b with
    | .error e => .error e
    | .ok s' => driveLoop cv s' rest

/-! ## The aggregator (`save_to_excel`) and the tail of `main` (lines 108–123) -/

/-- One question/answer record, the expected shape of the model's output items. -/
structure QARecord where
  question : String
  answer : String
deriving Repr, DecidableEq

/-- The dict a `QARecord` stands for, with its keys in insertion order. -/
def recordFields (r : QARecord) : List (String × String) :=
  [("question", r.question), ("answer", r.answer)]

/-- The in-memory table `pd.DataFrame` builds: named columns plus one cell row
per input record (a missing key would be a `none` cell, pandas' NaN). -/
structure ResultTable where
  columns : List String
  rows : List (List (Option String))
deriving Repr, DecidableEq

/-- Column inference of `pd.DataFrame` over a list of dicts: the union of the
dicts' keys, in order of first appearance. -/
def dfColumns : List String → List (List (String × String)) → List String
  | acc, [] => acc
  | acc, r :: rest =>
    dfColumns (r.foldl (fun a kv => if a.contains kv.1 then a else a ++ [kv.1]) acc) rest

/-- One row of the DataFrame: each column's value in the dict, if present. -/
def dfRow (cols : List String) (r : List (String × String)) : List (Option String) :=
  cols.map fun c => (r.find? fun kv => kv.1 == c).map Prod.snd

/-- `pd.DataFrame(flat_data)` over a list of string-valued dicts. -/
def pd_DataFrame (records : List (List (String × String))) : ResultTable :=
  let cols := dfColumns [] records
  { columns := cols, rows := records.map (dfRow cols) }

/-- `save_to_excel(qa_data)`:
`flat_data = [item for sublist in qa_data for item in sublist]` then
`df = pd.DataFrame(flat_data)`.  Typed at the claims' scope, a collection of
well-shaped QA records. -/
def save_to_excel (qa_data : List (List QARecord)) : ResultTable :=
  let flat_data := qa_data.flatten
  pd_DataFrame (flat_data.map recordFields)

/-- Modelled from the spec: the simplified aggregator (§9 of the spec) that
accepts one flat ordered sequence of records directly, with no wrapper layer. -/
def aggregate_flat (records : List QARecord) : ResultTable :=
  pd_DataFrame (records.map recordFields)

/-- What the tail of `main` leaves the operator with. -/
structure TailOutcome where
  /-- the DataFrame shown via `st.dataframe(df)`, when reached -/
  shownTable : Option ResultTable
  /-- the table snapshot whose CSV bytes `st.download_button` offers, when reached -/
  offeredCsv : Option ResultTable
  /-- `st.error("No Q&A pairs were generated.")` was shown -/
  noRecordsError : Bool
  /-- `df.to_excel` raised and the exception escaped `main` -/
  writeAborted : Bool
deriving Repr, DecidableEq

/-- Lines 108–123 of `main`: if `all_qa_pairs` is non-empty, call
`save_to_excel([all_qa_pairs])` — whose `df.to_excel(filename)` write is the
external outcome `writeOk` — then display the table and offer its CSV.
`save_to_excel` installs no handler, so a failed write raises before the
function returns: neither `st.dataframe` nor the CSV/download code runs. -/
def main_tail (all_qa_pairs : List QARecord) (writeOk : Bool) : TailOutcome :=
  if all_qa_pairs.isEmpty then
    { shownTable := none, offeredCsv := none, noRecordsError := true, writeAborted := false }
  else if writeOk then
    let df := save_to_excel [all_qa_pairs]
    { shownTable := some df, offeredCsv := some df, noRecordsError := false, writeAborted := false }
  else
    { shownTable := none, offeredCsv := none, noRecordsError := false, writeAborted := true }

/-! ## Properties of the comment ranking -/

theorem scoreDescLE_trans (a b c : Comment)
    (hab : scoreDescLE a b) (hbc : scoreDescLE b c) : scoreDescLE a c := by
  simp only [scoreDescLE, decide_eq_true_eq] at *
  omega

theorem scoreDescLE_total (a b : Comment) : scoreDescLE a b || scoreDescLE b a := by
  simp only [scoreDescLE, Bool.or_eq_true, decide_eq_true_eq]
  omega

/-- The ranked list is a permutation of the retrieved comments. -/
theorem rankComments_perm (cs : List Comment) : rankComments cs ~ cs :=
  List.mergeSort_perm cs scoreDescLE

/-- The ranked list is ordered by descending score. -/
theorem rankComments_sorted (cs : List Comment) :
    (rankComments cs).Pairwise (fun a b => b.score ≤ a.score) := by
  have h := List.sorted_mergeSort scoreDescLE_trans scoreDescLE_total cs
  exact h.imp (by intro a b hab; simpa [scoreDescLE] using hab)

/-- Stability of the ranking: comments of any one score appear in exactly
their original retrieval order (the sort never reorders ties). -/
theorem rankComments_filter_score (cs : List Comment) (s : Int) :
    (rankComments cs).filter (fun c => c.score == s) =
      cs.filter (fun c => c.score == s) := by
  have hpw : (cs.filter (fun c => c.score == s)).Pairwise
      (fun a b => scoreDescLE a b) := by
    apply List.pairwise_of_forall_mem_list
    intro a ha b hb
    have ha' := List.of_mem_filter ha
    have hb' := List.of_mem_filter hb
    simp only [beq_iff_eq] at ha' hb'
    simp [scoreDescLE, ha', hb']
  have hsub : cs.filter (fun c => c.score == s) <+ rankComments cs :=
    List.sublist_mergeSort scoreDescLE_trans scoreDescLE_total hpw
      (List.filter_sublist cs)
  have hsub2 := hsub.filter (fun c => c.score == s)
  have hid : (cs.filter (fun c => c.score == s)).filter (fun c => c.score == s) =
      cs.filter (fun c => c.score == s) := by
    rw [List.filter_filter]
    simp
  rw [hid] at hsub2
  have hlen := ((rankComments_perm cs).filter (fun c => c.score == s)).length_eq
  exact (hsub2.eq_of_length hlen.symm).symm

/-- `comments[:min(10, len(comments))]` is just the first ten of the ranking. -/
theorem topComments_eq_take10 (cs : List Comment) :
    topComments cs = (rankComments cs).take 10 := by
  have hlen : (rankComments cs).length = cs.length := List.length_mergeSort cs
  rw [topComments, ← hlen, ← List.take_take, List.take_length]

theorem topComments_sublist (cs : List Comment) : topComments cs <+ rankComments cs := by
  rw [topComments_eq_take10]
  exact List.take_sublist 10 _

/-- C1: for every thread bundle the fetcher produces, the kept comment list
has length at most 10, is sorted by descending score, and breaks ties between
equal-score comments by their original retrieval order: any two equal-score
comments kept in some order were retrieved in that same order (stability). -/
theorem c1_kept_comments_ranked (cs : List Comment) :
    (topComments cs).length ≤ 10 ∧
    (topComments cs).Pairwise (fun a b => b.score ≤ a.score) ∧
    (∀ a b : Comment, [a, b] <+ topComments cs → a.score = b.score →
      [a, b] <+ cs) := by
  refine ⟨?_, ?_, ?_⟩
  · rw [topComments_eq_take10]
    exact List.length_take_le 10 _
  · exact List.Pairwise.sublist (topComments_sublist cs) (rankComments_sorted cs)
  · intro a b hab hscore
    have h1 : [a, b] <+ rankComments cs := hab.trans (topComments_sublist cs)
    have h2 := h1.filter (fun c => c.score == a.score)
    have h3 : [a, b].filter (fun c => c.score == a.score) = [a, b] := by
      simp [List.filter, hscore]
    rw [h3, rankComments_filter_score cs a.score] at h2
    exact h2.trans (List.filter_sublist cs)

/-- Witness for C1 at a concrete input: three comments with a tie at score 2;
the two tied comments are kept in retrieval order. -/
theorem c1_kept_comments_ranked_witness :
    ([Comment.mk 2 "b", Comment.mk 2 "c"] <+
        topComments [Comment.mk 2 "b", Comment.mk 2 "c", Comment.mk 1 "a"]) ∧
    [Comment.mk 2 "b", Comment.mk 2 "c"] <+
      [Comment.mk 2 "b", Comment.mk 2 "c", Comment.mk 1 "a"] := by
  have hrank : rankComments [Comment.mk 2 "b", Comment.mk 2 "c", Comment.mk 1 "a"] =
      [Comment.mk 2 "b", Comment.mk 2 "c", Comment.mk 1 "a"] :=
    List.mergeSort_of_sorted (by decide)
  have htop : topComments [Comment.mk 2 "b", Comment.mk 2 "c", Comment.mk 1 "a"] =
      [Comment.mk 2 "b", Comment.mk 2 "c", Comment.mk 1 "a"] := by
    rw [topComments, hrank]
    decide
  have hsub : [Comment.mk 2 "b", Comment.mk 2 "c"] <+
      topComments [Comment.mk 2 "b", Comment.mk 2 "c", Comment.mk 1 "a"] := by
    rw [htop]; decide
  exact ⟨hsub, (c1_kept_comments_ranked _).2.2 _ _ hsub rfl⟩

/-! ## Body rendering and fetch failure -/

/-- C8: a fetched thread whose body text is empty renders the explicit
no-body marker in the body position of the bundle, and a thread with a
non-empty body renders the body itself. -/
theorem c8_body_marker (title : String) (top : List Comment) :
    formatPost title "" top =
      "Title: " ++ title ++ "\n" ++ "Post: " ++ noBodyMarker ++ "\n" ++
        commentLines 1 top ∧
    noBodyMarker = "[No body text]" ∧
    (∀ body : String, body ≠ "" →
      formatPost title body top =
        "Title: " ++ title ++ "\n" ++ "Post: " ++ body ++ "\n" ++
          commentLines 1 top) := by
  refine ⟨?_, rfl, ?_⟩
  · simp [formatPost, renderBody]
  · intro body hb
    simp [formatPost, renderBody, hb]

/-- Witness for C8 at concrete inputs: an empty and a non-empty body. -/
theorem c8_body_marker_witness :
    formatPost "T" "" [] =
      "Title: " ++ "T" ++ "\n" ++ "Post: " ++ noBodyMarker ++ "\n" ++
        commentLines 1 [] ∧
    formatPost "T" "hello" [] =
      "Title: " ++ "T" ++ "\n" ++ "Post: " ++ "hello" ++ "\n" ++
        commentLines 1 [] :=
  ⟨(c8_body_marker "T" []).1, (c8_body_marker "T" []).2.2 "hello" (by decide)⟩

/-- If any post in the retrieved list has a failing comment fetch, the whole
loop body raises. -/
theorem processPosts_error_of_mem (posts : List PostData) (p : PostData)
    (e : FetchErr) (hmem : p ∈ posts) (herr : p.commentsFetch = .error e) :
    ∃ e', processPosts posts = .error e' := by
  induction hmem with
  | head rest => exact ⟨e, by simp [processPosts, herr]⟩
  | tail q hmem ih =>
    rcases ih with ⟨e', he'⟩
    cases hq : q.commentsFetch with
    | error e2 => exact ⟨e2, by simp [processPosts, hq]⟩
    | ok cs => exact ⟨e', by simp [processPosts, hq, he']⟩

/-- C5: when the fetch stage fails for any reason — the initial thread
retrieval raising (e.g. invalid credentials), or a fault while fetching the
comments of any thread, even a later one — the fetcher returns `None`: no
partial list of thread bundles is ever returned to the caller. -/
theorem c5_fetch_all_or_nothing (e : FetchErr) :
    get_trending_posts_with_comments (.error e) = none ∧
    (∀ (posts : List PostData) (p : PostData), p ∈ posts →
      p.commentsFetch = .error e →
      get_trending_posts_with_comments (.ok posts) = none) := by
  refine ⟨rfl, ?_⟩
  intro posts p hmem herr
  rcases processPosts_error_of_mem posts p e hmem herr with ⟨e', he'⟩
  simp [get_trending_posts_with_comments, he']

/-- Witness for C5: a credentials failure, and a run where the first thread's
comments load but the second thread's comment fetch raises. -/
theorem c5_fetch_all_or_nothing_witness :
    get_trending_posts_with_comments (.error (.response "401")) = none ∧
    get_trending_posts_with_comments (.ok
      [PostData.mk "t1" "b1" (.ok [Comment.mk 5 "c"]),
       PostData.mk "t2" "b2" (.error (.other "timeout"))]) = none :=
  ⟨(c5_fetch_all_or_nothing (.response "401")).1,
   (c5_fetch_all_or_nothing (.other "timeout")).2
     [PostData.mk "t1" "b1" (.ok [Comment.mk 5 "c"]),
      PostData.mk "t2" "b2" (.error (.other "timeout"))]
     (PostData.mk "t2" "b2" (.error (.other "timeout")))
     (by simp) rfl⟩

/-! ## Driver-loop claims -/

/-- Running the loop over a prefix that completes normally and then the rest
is running the rest from the state the prefix produced. -/
theorem driveLoop_append (cv : String → Except ModelAPIError (Option JsonVal))
    (l₁ : List String) :
    ∀ (s s₁ : LoopState) (l₂ : List String),
      driveLoop cv s l₁ = .ok s₁ →
      driveLoop cv s (l₁ ++ l₂) = driveLoop cv s₁ l₂ := by
  induction l₁ with
  | nil =>
    intro s s₁ l₂ h
    simp only [driveLoop, Except.ok.injEq] at h
    subst h
    simp
  | cons b rest ih =>
    intro s s₁ l₂ h
    simp only [driveLoop] at h
    simp only [List.cons_append, driveLoop]
    cases hstep : driveStep cv s b with
    | error e => simp [hstep] at h
    | ok s' =>
      simp only [hstep] at h ⊢
      exact ih s' s₁ l₂ h

/-- C2: a bundle whose model response is not well-formed JSON yields no
records (`convert_to_qa` returns `None`), and the driver records one warning
for it and continues: the records accumulated from an earlier prefix of
bundles are kept unchanged and the later bundles are still processed. -/
theorem c2_malformed_json_isolated
    (generate : String → Except ModelAPIError String)
    (json_loads : String → Option JsonVal)
    (info resp : String) (pre rest : List String) (s0 s1 : LoopState)
    (hgen : generate (mkPrompt info) = .ok resp)
    (hparse : json_loads resp = none)
    (hpre : driveLoop (convert_to_qa generate json_loads) s0 pre = .ok s1) :
    convert_to_qa generate json_loads info = .ok none ∧
    driveLoop (convert_to_qa generate json_loads) s0 (pre ++ info :: rest) =
      driveLoop (convert_to_qa generate json_loads)
        { s1 with warnings := s1.warnings + 1 } rest := by
  have hcv : convert_to_qa generate json_loads info = .ok none := by
    simp [convert_to_qa, hgen, hparse]
  refine ⟨hcv, ?_⟩
  rw [driveLoop_append _ _ _ _ _ hpre]
  simp only [driveLoop, driveStep, hcv]

/-- Witness for C2: bundle "a" transforms into one record, bundle "bad" gets
a malformed model response, bundle "c" is still reached. -/
theorem c2_malformed_json_isolated_witness :
    convert_to_qa
      (fun p => if p = mkPrompt "bad" then .ok "notjson" else .ok "good")
      (fun t => if t = "good" then some (.arr [.str "q"]) else none) "bad" =
      .ok none ∧
    driveLoop (convert_to_qa
        (fun p => if p = mkPrompt "bad" then .ok "notjson" else .ok "good")
        (fun t => if t = "good" then some (.arr [.str "q"]) else none))
      ⟨[], 0⟩ (["a"] ++ "bad" :: ["c"]) =
      driveLoop (convert_to_qa
        (fun p => if p = mkPrompt "bad" then .ok "notjson" else .ok "good")
        (fun t => if t = "good" then some (.arr [.str "q"]) else none))
      ⟨[JsonVal.str "q"], 1⟩ ["c"] :=
  c2_malformed_json_isolated _ _ "bad" "notjson" ["a"] ["c"]
    ⟨[], 0⟩ ⟨[JsonVal.str "q"], 0⟩ rfl rfl rfl

/-- C3: an uncaught model-client error (`ModelAPIError`) raised on the bundle
after a successfully transformed prefix aborts the loop, and the state it
aborts with is exactly the prefix's accumulated records, unmodified. -/
theorem c3_model_fault_prefix_intact
    (generate : String → Except ModelAPIError String)
    (json_loads : String → Option JsonVal)
    (info : String) (pre post : List String) (s0 s1 : LoopState)
    (e : ModelAPIError)
    (hgen : generate (mkPrompt info) = .error e)
    (hpre : driveLoop (convert_to_qa generate json_loads) s0 pre = .ok s1) :
    convert_to_qa generate json_loads info = .error e ∧
    driveLoop (convert_to_qa generate json_loads) s0 (pre ++ info :: post) =
      .error (.modelApi e, s1) := by
  have hcv : convert_to_qa generate json_loads info = .error e := by
    simp [convert_to_qa, hgen]
  refine ⟨hcv, ?_⟩
  rw [driveLoop_append _ _ _ _ _ hpre]
  simp only [driveLoop, driveStep, hcv]

/-- Witness for C3: bundle "a" contributes one record, then the model client
faults on bundle "b"; the abort carries the one-record prefix state. -/
theorem c3_model_fault_prefix_intact_witness :
    driveLoop (convert_to_qa
        (fun p => if p = mkPrompt "b" then .error (.transport "down") else .ok "resp")
        (fun _ => some (.arr [.str "q"])))
      ⟨[], 0⟩ (["a"] ++ "b" :: []) =
      .error (.modelApi (.transport "down"), ⟨[JsonVal.str "q"], 0⟩) :=
  (c3_model_fault_prefix_intact
    (fun p => if p = mkPrompt "b" then .error (.transport "down") else .ok "resp")
    (fun _ => some (.arr [.str "q"]))
    "b" ["a"] [] ⟨[], 0⟩
    ⟨[JsonVal.str "q"], 0⟩ (.transport "down") rfl rfl).2

/-- C9: a transform that succeeds but parses to an empty list is handled by
the driver exactly like a failed transform: `if qa_pairs:` is false for both
`None` and `[]`, so the same warning is recorded, zero rows are added, and the
loop continues indistinguishably from the malformed-response case. -/
theorem c9_empty_records_like_failure
    (generate : String → Except ModelAPIError String)
    (json_loads : String → Option JsonVal)
    (info resp : String) (s : LoopState) (rest : List String)
    (hgen : generate (mkPrompt info) = .ok resp)
    (hparse : json_loads resp = some (.arr [])) :
    convert_to_qa generate json_loads info = .ok (some (.arr [])) ∧
    driveStep (convert_to_qa generate json_loads) s info =
      .ok { s with warnings := s.warnings + 1 } ∧
    driveLoop (convert_to_qa generate json_loads) s (info :: rest) =
      driveLoop (convert_to_qa generate json_loads)
        { s with warnings := s.warnings + 1 } rest ∧
    (∀ (cv₂ : String → Except ModelAPIError (Option JsonVal)) (info₂ : String),
      cv₂ info₂ = .ok none →
      driveStep cv₂ s info₂ = driveStep (convert_to_qa generate json_loads) s info) := by
  have hcv : convert_to_qa generate json_loads info = .ok (some (.arr [])) := by
    simp [convert_to_qa, hgen, hparse]
  have hstep : driveStep (convert_to_qa generate json_loads) s info =
      .ok { s with warnings := s.warnings + 1 } := by
    simp [driveStep, hcv, pyTruthy]
  refine ⟨hcv, hstep, ?_, ?_⟩
  · simp only [driveLoop, hstep]
  · intro cv₂ info₂ h₂
    rw [hstep]
    simp [driveStep, h₂]

/-- Witness for C9: a response parsing to `[]` yields the warning transition,
identical to a `None`-returning transform. -/
theorem c9_empty_records_like_failure_witness :
    driveStep (convert_to_qa (fun _ => .ok "[]") (fun _ => some (.arr [])))
      ⟨[JsonVal.str "prev"], 0⟩ "post" = .ok ⟨[JsonVal.str "prev"], 1⟩ ∧
    driveStep (fun _ => .ok none) ⟨[JsonVal.str "prev"], 0⟩ "x" =
      driveStep (convert_to_qa (fun _ => .ok "[]") (fun _ => some (.arr [])))
        ⟨[JsonVal.str "prev"], 0⟩ "post" :=
  ⟨(c9_empty_records_like_failure _ _ "post" "[]" ⟨[JsonVal.str "prev"], 0⟩ []
      rfl rfl).2.1,
   (c9_empty_records_like_failure _ _ "post" "[]" ⟨[JsonVal.str "prev"], 0⟩ []
      rfl rfl).2.2.2 (fun _ => .ok none) "x" rfl⟩

/-! ## Shape of the parsed value (claim C10) -/

/-- C10 counterexample: for the well-formed JSON response `7`, the transformer
does return the number unchanged, but the driver's
`all_qa_pairs.extend(qa_pairs)` raises `TypeError` on the non-iterable value:
the run aborts and the number is never passed through to the aggregator. -/
theorem c10_number_not_passed_through :
    convert_to_qa (fun _ => .ok "7") (fun _ => some (.num 7)) "post" =
      .ok (some (.num 7)) ∧
    driveLoop (convert_to_qa (fun _ => .ok "7") (fun _ => some (.num 7)))
      ⟨[], 0⟩ ["post"] = .error (.typeError, ⟨[], 0⟩) :=
  ⟨rfl, rfl⟩

/-- C10 (amended): for every well-formed JSON response the transformer returns
the parsed value unchanged, with no validation of its shape.  Any truthy
iterable value — a list of anything, a dict (iterated as its keys), a string
(iterated as its characters) — flows unchecked into the accumulated collection
handed to the aggregator, while a truthy non-iterable value (number, boolean)
makes the driver's `extend` raise `TypeError` instead of reaching the
aggregator. -/
theorem c10_no_shape_validation
    (generate : String → Except ModelAPIError String)
    (json_loads : String → Option JsonVal)
    (info resp : String) (v : JsonVal) (s : LoopState)
    (hgen : generate (mkPrompt info) = .ok resp)
    (hparse : json_loads resp = some v) :
    convert_to_qa generate json_loads info = .ok (some v) ∧
    (∀ items, pyTruthy v = true → pyIterate v = some items →
      driveStep (convert_to_qa generate json_loads) s info =
        .ok { s with all_qa_pairs := s.all_qa_pairs ++ items }) ∧
    (pyTruthy v = true → pyIterate v = none →
      driveStep (convert_to_qa generate json_loads) s info =
        .error (.typeError, s)) := by
  have hcv : convert_to_qa generate json_loads info = .ok (some v) := by
    simp [convert_to_qa, hgen, hparse]
  refine ⟨hcv, ?_, ?_⟩
  · intro items ht hi
    simp [driveStep, hcv, ht, hi]
  · intro ht hi
    simp [driveStep, hcv, ht, hi]

/-- Witness for C10 (amended): the plain JSON string `"ab"` — not a list of
question/answer objects — is returned unchanged and its characters are
extended into the accumulator. -/
theorem c10_no_shape_validation_witness :
    convert_to_qa (fun _ => .ok "x") (fun _ => some (.str "ab")) "post" =
      .ok (some (.str "ab")) ∧
    driveStep (convert_to_qa (fun _ => .ok "x") (fun _ => some (.str "ab")))
      ⟨[], 0⟩ "post" = .ok ⟨[JsonVal.str "a", JsonVal.str "b"], 0⟩ :=
  ⟨(c10_no_shape_validation (fun _ => .ok "x") (fun _ => some (.str "ab"))
      "post" "x" (.str "ab") ⟨[], 0⟩ rfl rfl).1,
   (c10_no_shape_validation (fun _ => .ok "x") (fun _ => some (.str "ab"))
      "post" "x" (.str "ab") ⟨[], 0⟩ rfl rfl).2.1
     [JsonVal.str "a", JsonVal.str "b"] rfl rfl⟩

/-! ## Aggregator claims -/

/-- When every key of a record is already a known column, the fold over its
key/value pairs adds nothing. -/
theorem foldl_known_keys (acc : List String) :
    ∀ (r : List (String × String)), (∀ kv ∈ r, acc.contains kv.1 = true) →
      r.foldl (fun a kv => if a.contains kv.1 then a else a ++ [kv.1]) acc = acc
  | [], _ => rfl
  | kv :: kvs, hr => by
    rw [List.foldl_cons, if_pos (hr kv (List.mem_cons_self kv kvs))]
    exact foldl_known_keys acc kvs fun kv' hkv' =>
      hr kv' (List.mem_cons_of_mem kv hkv')

/-- When every key of every record is already a known column, column
inference adds nothing. -/
theorem dfColumns_of_known_keys :
    ∀ (records : List (List (String × String))) (acc : List String),
      (∀ r ∈ records, ∀ kv ∈ r, acc.contains kv.1 = true) →
      dfColumns acc records = acc
  | [], _, _ => rfl
  | r :: rest, acc, h => by
    rw [dfColumns, foldl_known_keys acc r (h r (List.mem_cons_self r rest))]
    exact dfColumns_of_known_keys rest acc
      fun r' hr' kv hkv => h r' (List.mem_cons_of_mem r hr') kv hkv

/-- Column inference over a non-empty list of question/answer dicts yields
exactly the two columns, in insertion order. -/
theorem dfColumns_qa (r : QARecord) (rs : List QARecord) :
    dfColumns [] ((r :: rs).map recordFields) = ["question", "answer"] := by
  rw [List.map_cons, dfColumns]
  have h1 : (recordFields r).foldl
      (fun a kv => if a.contains kv.1 then a else a ++ [kv.1]) [] =
      ["question", "answer"] := rfl
  rw [h1]
  apply dfColumns_of_known_keys
  intro r' hr' kv hkv
  rcases List.mem_map.mp hr' with ⟨q, _, hq⟩
  subst hq
  simp only [recordFields, List.mem_cons, List.mem_singleton] at hkv
  rcases hkv with h | h | h
  · rw [h]; rfl
  · rw [h]; rfl
  · cases h

/-- Each question/answer dict projects to the expected two-cell row. -/
theorem dfRow_qa (cols_r : QARecord) :
    dfRow ["question", "answer"] (recordFields cols_r) =
      [some cols_r.question, some cols_r.answer] := rfl

/-- The singleton wrapper `save_to_excel([all_qa_pairs])` builds the same
table as aggregating the flat list directly. -/
theorem save_to_excel_singleton (records : List QARecord) :
    save_to_excel [records] = aggregate_flat records := by
  simp [save_to_excel, aggregate_flat]

/-- C6: for a finalized, non-empty collection of QA records (the driver only
invokes the aggregator when `all_qa_pairs` is non-empty), `save_to_excel`
builds a table with exactly the two columns `question` and `answer`, one row
per record, in append order (thread-arrival order, then within-thread
order — the flatten preserves the order of `qa_data`). -/
theorem c6_table_columns_rows (qa_data : List (List QARecord))
    (hne : qa_data.flatten ≠ []) :
    (save_to_excel qa_data).columns = ["question", "answer"] ∧
    (save_to_excel qa_data).rows.length = (qa_data.map List.length).sum ∧
    (save_to_excel qa_data).rows =
      qa_data.flatten.map fun r => [some r.question, some r.answer] := by
  refine ⟨?_, ?_, ?_⟩
  · cases hflat : qa_data.flatten with
    | nil => exact absurd hflat hne
    | cons r rs =>
      simp only [save_to_excel, pd_DataFrame, hflat]
      exact dfColumns_qa r rs
  · have hlen : (save_to_excel qa_data).rows.length = qa_data.flatten.length := by
      simp only [save_to_excel, pd_DataFrame]
      rw [List.length_map, List.length_map]
    rw [hlen, List.length_flatten]
  · cases hflat : qa_data.flatten with
    | nil => exact absurd hflat hne
    | cons r rs =>
      simp only [save_to_excel, pd_DataFrame, hflat]
      rw [dfColumns_qa, List.map_map]
      exact List.map_congr_left fun a _ => dfRow_qa a

/-- Witness for C6: two threads contributing one record each. -/
theorem c6_table_columns_rows_witness :
    (save_to_excel [[QARecord.mk "Q1" "A1"], [QARecord.mk "Q2" "A2"]]).columns =
      ["question", "answer"] ∧
    (save_to_excel [[QARecord.mk "Q1" "A1"], [QARecord.mk "Q2" "A2"]]).rows =
      [[some "Q1", some "A1"], [some "Q2", some "A2"]] := by
  have h := c6_table_columns_rows
    [[QARecord.mk "Q1" "A1"], [QARecord.mk "Q2" "A2"]] (by decide)
  exact ⟨h.1, by rw [h.2.2]; rfl⟩

/-- C7: flattening the one-element wrapper around the already-concatenated
record list is the identity on it, so `save_to_excel([all_qa_pairs])` builds
the same table as an aggregator accepting the flat sequence directly. -/
theorem c7_singleton_flatten_identity (records : List QARecord) :
    ([records] : List (List QARecord)).flatten = records ∧
    save_to_excel [records] = aggregate_flat records :=
  ⟨by simp, save_to_excel_singleton records⟩

/-- C4 counterexample: with one accumulated record and a failing spreadsheet
write, the tail of `main` offers nothing to the operator — `save_to_excel`
installs no handler, the exception escapes before the table is returned, and
the CSV stream (built only after a successful write) never exists. -/
theorem c4_nothing_offered_on_write_failure :
    (main_tail [QARecord.mk "Q" "A"] false).offeredCsv = none ∧
    (main_tail [QARecord.mk "Q" "A"] false).shownTable = none ∧
    (main_tail [QARecord.mk "Q" "A"] false).writeAborted = true :=
  ⟨rfl, rfl, rfl⟩

/-- C4 (amended): a failed spreadsheet write makes the tail of `main` abort
with the escaping exception — no table shown, no CSV stream built or offered —
while the accumulated in-memory records themselves are untouched by the
attempt: the same records still aggregate to the same table, as a run with a
succeeding write shows. -/
theorem c4_write_failure_aborts (qa : List QARecord) (h : qa ≠ []) :
    main_tail qa false =
      { shownTable := none, offeredCsv := none,
        noRecordsError := false, writeAborted := true } ∧
    main_tail qa true =
      { shownTable := some (aggregate_flat qa),
        offeredCsv := some (aggregate_flat qa),
        noRecordsError := false, writeAborted := false } := by
  have hne : qa.isEmpty = false := by
    simpa [List.isEmpty_iff] using h
  constructor
  · simp [main_tail, hne]
  · simp [main_tail, hne, save_to_excel_singleton]

/-- Witness for C4 (amended) at a one-record collection. -/
theorem c4_write_failure_aborts_witness :
    main_tail [QARecord.mk "Q" "A"] false =
      { shownTable := none, offeredCsv := none,
        noRecordsError := false, writeAborted := true } :=
  (c4_write_failure_aborts [QARecord.mk "Q" "A"] (by decide)).1

end RedditQA
